import Mathlib

/-!
Verification development for the lower-computer upload client
(`NQI_Project_lower_client`): a shallow embedding in Lean 4 of the
connectivity supervisor (`src/api/long_polling_client.py`), the upload
worker and window logic (`src/main.py`) and the configuration accessors
(`src/config/config.py`), together with theorems settling the behavioural
claims about these components.
-/

namespace LowerClient

/-! ## Upload worker (`src/main.py`, `UploadWorker.run`) -/

/-- A Qt signal emission observed from `UploadWorker.run`:
`progress` is `signals.progress.emit(file_name, pct)` and
`finished` is `signals.finished.emit(file_name, ok, msg)`. -/
inductive Event
  | progress (fileName : String) (pct : Nat)
  | finished (fileName : String) (ok : Bool) (msg : String)
  deriving DecidableEq, Repr

/-- Response dictionary of `APIClient.upload_file`, restricted to the keys
`UploadWorker.run` reads: `file_id`, `original_size`, `compressed_size`
(the latter two default to 0 via `result.get(key, 0)`). -/
structure UploadResponse where
  file_id : String
  original_size : Nat
  compressed_size : Nat
  deriving DecidableEq, Repr

/-- `src/main.py` line 59:
`((original_size - compressed_size) / original_size * 100) if original_size > 0 else 0`.
Python evaluates the arithmetic over exact integers promoted to a true
division, embedded here in `ℚ`. -/
def compression_ratio (original_size compressed_size : Nat) : ℚ :=
  if 0 < original_size then
    ((original_size : ℚ) - (compressed_size : ℚ)) / (original_size : ℚ) * 100
  else 0

/-- The success message built at `src/main.py` lines 61-69: the header with
the file id, and for image items with a positive compression ratio the
three extra size lines.  The numeric rendering of the sizes is abstracted
by keeping the raw numbers in the string via `toString`; the claims only
depend on which branch is taken, not on the decimal formatting. -/
def successMessage (isImage : Bool) (resp : UploadResponse) : String :=
  let base := "上传成功！文件ID: " ++ resp.file_id ++ "\n"
  if isImage ∧ 0 < compression_ratio resp.original_size resp.compressed_size then
    base ++ "原始大小: " ++ toString resp.original_size ++ "\n"
         ++ "压缩后: " ++ toString resp.compressed_size ++ "\n"
         ++ "压缩率: " ++ toString (compression_ratio resp.original_size resp.compressed_size) ++ "%"
  else base

/-- Where, if anywhere, an exception escapes the body of the `try` block in
`UploadWorker.run`: `ok` means no exception; `raiseAtUpload` means
`client.upload_file` raised (before the 100% progress emit);
`raiseAfterProgress` means the post-upload processing raised after the
100% progress emit but before `finished` was emitted (everything from line
57 to line 70 sits inside the same `try`). -/
inductive RunOutcome
  | ok (resp : UploadResponse)
  | raiseAtUpload (err : String)
  | raiseAfterProgress (err : String)
  deriving DecidableEq, Repr

/-- Shallow embedding of `UploadWorker.run` (`src/main.py` lines 41-75) as
the list of signal emissions it produces, in order.  The `try` block emits
`progress 30`, uploads, emits `progress 100`, builds the message and emits
`finished True`; the single `except Exception` handler emits `progress 0`
then `finished False` with the message `"上传失败: " + str(e)`. -/
def UploadWorker.run (fileName : String) (isImage : Bool) (oc : RunOutcome) : List Event :=
  match oc with
  | .ok resp =>
      [Event.progress fileName 30, Event.progress fileName 100,
       Event.finished fileName true (successMessage isImage resp)]
  | .raiseAtUpload err =>
      [Event.progress fileName 30, Event.progress fileName 0,
       Event.finished fileName false ("上传失败: " ++ err)]
  | .raiseAfterProgress err =>
      [Event.progress fileName 30, Event.progress fileName 100,
       Event.progress fileName 0,
       Event.finished fileName false ("上传失败: " ++ err)]

/-- Recogniser for terminal-result emissions. -/
def Event.isResult : Event → Bool
  | .finished _ _ _ => true
  | .progress _ _ => false

end LowerClient

namespace LowerClient

theorem failure_message_ne_empty (err : String) : ("上传失败: " ++ err) ≠ "" := by
  intro h
  have hlen := congrArg String.length h
  rw [String.length_append] at hlen
  have hpre : ("上传失败: " : String).length = 6 := rfl
  have hnil : ("" : String).length = 0 := rfl
  omega

/-- C1: every run of `UploadWorker.run` emits exactly one terminal
`finished` result; on success the run is exactly the 30%-progress,
100%-progress, success-result sequence (so the success result follows the
100% progress report); and when the transfer raises, the run still ends in
exactly one failure result whose message is non-empty, the exception never
escaping `run`. -/
theorem uploadWorker_exactly_one_result (fileName : String) (isImage : Bool)
    (oc : RunOutcome) :
    (UploadWorker.run fileName isImage oc).countP (fun e => e.isResult) = 1
    ∧ (∀ resp, oc = RunOutcome.ok resp →
        UploadWorker.run fileName isImage oc
          = [Event.progress fileName 30, Event.progress fileName 100,
             Event.finished fileName true (successMessage isImage resp)])
    ∧ (∀ err, (oc = RunOutcome.raiseAtUpload err ∨ oc = RunOutcome.raiseAfterProgress err) →
        (UploadWorker.run fileName isImage oc).getLast?
            = some (Event.finished fileName false ("上传失败: " ++ err))
          ∧ ("上传失败: " ++ err) ≠ "") := by
  refine ⟨?_, ?_, ?_⟩
  · cases oc <;> rfl
  · intro resp h
    subst h
    rfl
  · intro err h
    rcases h with h | h <;> subst h <;>
      exact ⟨rfl, failure_message_ne_empty err⟩

/-- Witness for C1 at a concrete outcome: a failing upload of file `"a.xlsx"`
with error text `"boom"` produces exactly one result event, and it is a
failure with a non-empty message. -/
theorem uploadWorker_exactly_one_result_witness :
    (UploadWorker.run "a.xlsx" false (RunOutcome.raiseAtUpload "boom")).countP
        (fun e => e.isResult) = 1
      ∧ (UploadWorker.run "a.xlsx" false (RunOutcome.raiseAtUpload "boom")).getLast?
          = some (Event.finished "a.xlsx" false ("上传失败: " ++ "boom"))
      ∧ ("上传失败: " ++ "boom") ≠ "" := by
  have h := uploadWorker_exactly_one_result "a.xlsx" false (RunOutcome.raiseAtUpload "boom")
  exact ⟨h.1, (h.2.2 "boom" (Or.inl rfl)).1, (h.2.2 "boom" (Or.inl rfl)).2⟩

/-- C4: the derived compression ratio equals `(o - c) / o * 100` whenever
`o > 0`, is `0` (with no division error, the function being total) when
`o = 0`, and at `o = 2000000`, `c = 500000` it equals `75`. -/
theorem compression_ratio_spec (o c : Nat) :
    (0 < o → compression_ratio o c = ((o : ℚ) - (c : ℚ)) / (o : ℚ) * 100)
      ∧ compression_ratio 0 c = 0
      ∧ compression_ratio 2000000 500000 = 75 := by
  refine ⟨fun h => by simp [compression_ratio, h], by simp [compression_ratio], ?_⟩
  norm_num [compression_ratio]

/-- Witness for C4 at the concrete sizes from the spec scenario. -/
theorem compression_ratio_spec_witness :
    (0 < 2000000 → compression_ratio 2000000 500000
        = ((2000000 : ℚ) - (500000 : ℚ)) / (2000000 : ℚ) * 100)
      ∧ compression_ratio 2000000 500000 = 75 := by
  have h := compression_ratio_spec 2000000 500000
  exact ⟨h.1, h.2.2⟩

/-! ## Connectivity supervisor (`src/api/long_polling_client.py`) -/

/-- Outcome of one heartbeat probe, matching the branches of the
`try`/`except` in `LowerLongPollingClient.start` (lines 44-75):
HTTP 200, HTTP non-200, `requests.exceptions.Timeout`,
`requests.exceptions.ConnectionError`, and the `except Exception`
catch-all. -/
inductive ProbeOutcome
  | httpOk
  | httpError (code : Nat)
  | timeout
  | connError (msg : String)
  | otherExc (msg : String)
  deriving DecidableEq, Repr

/-- The value `self.connected` holds after one probe: `True` exactly on
HTTP 200 (lines 55-58); every other branch sets it to `False`
(lines 61-75). -/
def probeConnected : ProbeOutcome → Bool
  | .httpOk => true
  | _ => false

/-- The mutable fields of `LowerLongPollingClient` the heartbeat loop reads
and writes: `self.connected` and `self.running`. -/
structure HbState where
  connected : Bool
  running : Bool
  deriving DecidableEq, Repr

/-- One observable event in an execution of the heartbeat loop: either the
loop body runs one probe, or another thread calls `stop()` (which only sets
`self.running = False`, line 100). -/
inductive HbEvent
  | probe (o : ProbeOutcome)
  | stopReq
  deriving DecidableEq, Repr

/-- Recogniser for probe events. -/
def HbEvent.isProbe : HbEvent → Bool
  | .probe _ => true
  | .stopReq => false

/-- Interleaved semantics of the `while self.running` loop of
`LowerLongPollingClient.start` (lines 43-79): processing an event list in
order, a probe event executes the loop body (updating only `connected`;
every exception is absorbed by one of the three `except` handlers, and the
body contains no `break` or `return`) as long as `running` is true, and a
`stopReq` sets `running := false`, after which the `while` test fails and
no further probe executes.  Returns the final state and the number of
probes actually executed. -/
def hbRun : HbState → List HbEvent → HbState × Nat
  | s, [] => (s, 0)
  | s, e :: es =>
    if s.running then
      match e with
      | .probe o =>
          let r := hbRun { s with connected := probeConnected o } es
          (r.1, r.2 + 1)
      | .stopReq => hbRun { s with running := false } es
    else (s, 0)

end LowerClient

namespace LowerClient

theorem hbRun_no_stop (s : HbState) (evts : List HbEvent)
    (hrun : s.running = true) (hstop : HbEvent.stopReq ∉ evts) :
    (hbRun s evts).1.running = true
      ∧ (hbRun s evts).2 = evts.countP (fun e => e.isProbe) := by
  induction evts generalizing s with
  | nil => simp [hbRun, hrun]
  | cons e es ih =>
    have hne : e ≠ HbEvent.stopReq := fun h => hstop (h ▸ List.mem_cons_self e es)
    have hes : HbEvent.stopReq ∉ es := fun h => hstop (List.mem_cons_of_mem e h)
    cases e with
    | probe o =>
        have h2 := ih { s with connected := probeConnected o } hrun hes
        rw [hrun] at h2
        constructor
        · simpa [hbRun, hrun] using h2.1
        · simp only [hbRun, hrun, if_true, List.countP_cons]
          simp [HbEvent.isProbe, h2.2]
    | stopReq => exact absurd rfl hne

/-- C2: the heartbeat loop never terminates itself.  For every interleaving
of probe outcomes and stop requests: (a) if no `stop()` occurs, the loop is
still running at the end and has executed every scheduled probe — in
particular the probe following any failed probe — whatever each probe's
outcome (success, non-200, timeout, connection error or other exception);
and (b) if the loop has stopped running, some `stop()` request occurred. -/
theorem heartbeat_loop_never_self_terminates (c : Bool) (evts : List HbEvent) :
    (HbEvent.stopReq ∉ evts →
        (hbRun ⟨c, true⟩ evts).1.running = true
          ∧ (hbRun ⟨c, true⟩ evts).2 = evts.countP (fun e => e.isProbe))
      ∧ ((hbRun ⟨c, true⟩ evts).1.running = false → HbEvent.stopReq ∈ evts) := by
  constructor
  · intro hstop
    exact hbRun_no_stop ⟨c, true⟩ evts rfl hstop
  · intro hran
    by_contra hmem
    have := (hbRun_no_stop ⟨c, true⟩ evts rfl hmem).1
    rw [this] at hran
    exact Bool.noConfusion hran

/-- Witness for C2 at a concrete interleaving: after a timeout failure and
a connection error, the next probes still execute (all 4 probes run) and
the loop is still running; and a trace containing a stop request does stop
the loop. -/
theorem heartbeat_loop_never_self_terminates_witness :
    (HbEvent.stopReq ∉
        [HbEvent.probe ProbeOutcome.timeout,
         HbEvent.probe ProbeOutcome.httpOk,
         HbEvent.probe (ProbeOutcome.connError "refused"),
         HbEvent.probe ProbeOutcome.httpOk])
      ∧ (hbRun ⟨false, true⟩
          [HbEvent.probe ProbeOutcome.timeout,
           HbEvent.probe ProbeOutcome.httpOk,
           HbEvent.probe (ProbeOutcome.connError "refused"),
           HbEvent.probe ProbeOutcome.httpOk]).1.running = true
      ∧ (hbRun ⟨false, true⟩
          [HbEvent.probe ProbeOutcome.timeout,
           HbEvent.probe ProbeOutcome.httpOk,
           HbEvent.probe (ProbeOutcome.connError "refused"),
           HbEvent.probe ProbeOutcome.httpOk]).2 = 4 := by
  have hnm : HbEvent.stopReq ∉
      [HbEvent.probe ProbeOutcome.timeout,
       HbEvent.probe ProbeOutcome.httpOk,
       HbEvent.probe (ProbeOutcome.connError "refused"),
       HbEvent.probe ProbeOutcome.httpOk] := by decide
  have h := (heartbeat_loop_never_self_terminates false
      [HbEvent.probe ProbeOutcome.timeout,
       HbEvent.probe ProbeOutcome.httpOk,
       HbEvent.probe (ProbeOutcome.connError "refused"),
       HbEvent.probe ProbeOutcome.httpOk]).1 hnm
  exact ⟨hnm, h.1, by rw [h.2]; decide⟩

end LowerClient

namespace LowerClient

/-! ## Timed model of the heartbeat cycle and `stop()` latency -/

/-- `self.heartbeat_interval = 30` (`long_polling_client.py` line 32). -/
def heartbeat_interval : Nat := 30

/-- The per-probe timeout: `requests.post(..., timeout=10)` (line 52). -/
def probe_timeout : Nat := 10

/-- The timeout of the departure notification: `requests.post(...,
timeout=5)` in the epilogue after the loop (line 89). -/
def offline_notice_timeout : Nat := 5

/-- Timed model of one cycle of the `while self.running` loop
(`long_polling_client.py` lines 43-79) with heartbeat interval `interval`.
The cycle begins at time `t` with `running` still true; the probe takes
`d` time units; the code then evaluates `if self.running` at `t + d`.
A `stop()` issued at absolute time `s` has been observed there iff
`s ≤ t + d`, in which case the sleep is skipped and the `while` test exits
the loop at `t + d`.  Otherwise `time.sleep(self.heartbeat_interval)` runs
— a fixed delay that no flag can interrupt — so the `while` test next
observes the flag only at `t + d + interval`; the loop exits there iff the
stop arrived during the sleep, and otherwise the next cycle begins.
Returns the loop-exit time when the loop exits within this cycle. -/
def cycleExit (interval t d s : Nat) : Option Nat :=
  if s ≤ t + d then some (t + d)
  else if s ≤ t + d + interval then some (t + d + interval)
  else none

end LowerClient

namespace LowerClient

/-- C3 counterexample: the stop latency is NOT bounded by the probe
timeout.  With the configured interval 30, a `stop()` issued at time 1 —
just after the post-probe check started the sleep of a cycle whose probe
returned instantly at time 0 — is observed only at time 30: a latency of
29 > `probe_timeout + 10`.  Scaling the interval to 1000 scales the
latency to 999, so no fixed `ε` bounds it: the inter-probe wait is a fixed
uninterruptible `time.sleep`, and the wake-up latency grows with the
heartbeat interval rather than being set by the probe timeout. -/
theorem stop_latency_exceeds_timeout_counterexample :
    cycleExit heartbeat_interval 0 0 1 = some 30
      ∧ probe_timeout + 10 < 30 - 1
      ∧ cycleExit 1000 0 0 1 = some 1000
      ∧ probe_timeout + 900 < 1000 - 1 := by
  refine ⟨?_, by decide, ?_, by decide⟩ <;> decide

/-- C3 amended: the loop-exit time after a `stop()` at time `s ≥ t` is
bounded by `s + d + interval` — the probe duration plus the FULL heartbeat
interval — and with the probe duration capped by its timeout this is
`s + probe_timeout + interval`; the `timeout + ε` bound of the claim does
not hold because `time.sleep` is a fixed uninterruptible delay. -/
theorem stop_latency_bounded_by_interval (interval t d s e : Nat)
    (hts : t ≤ s) (hexit : cycleExit interval t d s = some e) :
    e ≤ s + d + interval
      ∧ (d ≤ probe_timeout → e ≤ s + probe_timeout + interval) := by
  unfold cycleExit at hexit
  split at hexit
  · cases hexit
    omega
  · split at hexit
    · cases hexit
      omega
    · cases hexit

/-- Witness for C3 amended at the concrete counterexample input: stop at
time 1 during the sleep of a zero-duration probe cycle exits at time 30 ≤
1 + 0 + 30. -/
theorem stop_latency_bounded_by_interval_witness :
    (0 : Nat) ≤ 1 ∧ cycleExit heartbeat_interval 0 0 1 = some 30
      ∧ (30 : Nat) ≤ 1 + 0 + heartbeat_interval := by
  refine ⟨by decide, by decide, ?_⟩
  exact (stop_latency_bounded_by_interval heartbeat_interval 0 0 1 30
    (by decide) (by decide)).1

end LowerClient

namespace LowerClient

/-! ## Connecting to the server (`src/main.py`, `connect_to_server`) -/

/-- The (already `.strip()`-ed) inputs `connect_to_server` reads at
`src/main.py` lines 479-481: the server-address field, the device-id
field and the stored hardware key. -/
structure ConnectInputs where
  server_url : String
  device_id : String
  hardware_key : String
  deriving DecidableEq, Repr

/-- Observable outcome of `connect_to_server`: the early
`QMessageBox.warning` return (lines 483-485), a successful connection
that started the heartbeat thread (lines 496-539), or the `except` branch
when authentication raised (lines 541-545). -/
inductive ConnectResult
  | warned (msg : String)
  | connected (mode : String)
  | failed (err : String)
  deriving DecidableEq, Repr

/-- Shallow embedding of `LowerComputerWindow.connect_to_server`
(`src/main.py` lines 476-545) in long-polling mode, returning the outcome
together with whether the heartbeat thread was started.  The guard is
Python's `if not all([server_url, device_id, hardware_key])`, which is
taken exactly when one of the three strings is empty; it returns before
any client is created, so the liveness loop never starts.  The
authentication call may raise; the handler sets `authenticated = False`
and returns without starting the thread.  Only the success path
constructs `LowerLongPollingThread` and starts it. -/
def connect_to_server (inp : ConnectInputs) (auth : Except String Unit) :
    ConnectResult × Bool :=
  if inp.server_url = "" ∨ inp.device_id = "" ∨ inp.hardware_key = "" then
    (ConnectResult.warned "请填写必要信息", false)
  else
    match auth with
    | .error e => (ConnectResult.failed e, false)
    | .ok _ => (ConnectResult.connected "long_polling", true)

/-- Number of heartbeat probes issued after a `connect_to_server` call,
for a given schedule of loop events: the heartbeat loop `hbRun` only
executes at all when the thread was started. -/
def connectProbes (inp : ConnectInputs) (auth : Except String Unit)
    (evts : List HbEvent) : Nat :=
  if (connect_to_server inp auth).2 then (hbRun ⟨false, true⟩ evts).2 else 0

/-- C5: with an empty device id or an empty hardware key,
`connect_to_server` returns the warning synchronously, does not start the
heartbeat thread, and consequently no liveness probe is ever issued,
whatever the authentication outcome or probe schedule would have been. -/
theorem connect_fails_fast_on_empty_identity (inp : ConnectInputs)
    (auth : Except String Unit)
    (h : inp.device_id = "" ∨ inp.hardware_key = "") :
    (connect_to_server inp auth).1 = ConnectResult.warned "请填写必要信息"
      ∧ (connect_to_server inp auth).2 = false
      ∧ ∀ evts : List HbEvent, connectProbes inp auth evts = 0 := by
  have hguard : inp.server_url = "" ∨ inp.device_id = "" ∨ inp.hardware_key = "" :=
    Or.inr h
  refine ⟨?_, ?_, ?_⟩
  · simp [connect_to_server, hguard]
  · simp [connect_to_server, hguard]
  · intro evts
    simp [connectProbes, connect_to_server, hguard]

/-- Witness for C5 at a concrete input: empty hardware key, non-empty
server and device id. -/
theorem connect_fails_fast_on_empty_identity_witness :
    ((⟨"http://localhost:8000", "dev-1", ""⟩ : ConnectInputs).device_id = ""
        ∨ (⟨"http://localhost:8000", "dev-1", ""⟩ : ConnectInputs).hardware_key = "")
      ∧ (connect_to_server ⟨"http://localhost:8000", "dev-1", ""⟩
          (Except.ok ())).1 = ConnectResult.warned "请填写必要信息"
      ∧ (connect_to_server ⟨"http://localhost:8000", "dev-1", ""⟩
          (Except.ok ())).2 = false
      ∧ connectProbes ⟨"http://localhost:8000", "dev-1", ""⟩ (Except.ok ())
          [HbEvent.probe ProbeOutcome.httpOk] = 0 := by
  have h := connect_fails_fast_on_empty_identity
    ⟨"http://localhost:8000", "dev-1", ""⟩ (Except.ok ()) (Or.inr rfl)
  exact ⟨Or.inr rfl, h.1, h.2.1, h.2.2 [HbEvent.probe ProbeOutcome.httpOk]⟩

end LowerClient

namespace LowerClient

/-! ## Shutdown sequence of the supervisor -/

/-- `LowerLongPollingClient.stop` (`long_polling_client.py` lines 98-101):
sets `self.running = False` and returns immediately. -/
def LowerLongPollingClient.stop (s : HbState) : HbState :=
  { s with running := false }

/-- `LowerLongPollingClient.is_connected` (lines 103-105):
`self.connected and self.running`. -/
def is_connected (s : HbState) : Bool :=
  s.connected && s.running

/-- The epilogue after the `while` loop exits (`long_polling_client.py`
lines 81-96): exactly one `requests.post` to `/api/device/offline` with
`timeout=5` inside a `try` whose bare `except: pass` swallows every
failure, then `self.connected = False`.  The result is the final state and
the number of departure-notification attempts made. -/
def shutdownEpilogue (s : HbState) (notify : Except String Unit) :
    HbState × Nat :=
  match notify with
  | .ok _ => ({ s with connected := false }, 1)
  | .error _ => ({ s with connected := false }, 1)

/-- C7 counterexample: right after `stop()` — before the loop epilogue has
attempted the departure notification — the client still holds
`connected = True`, yet the reported connection state `is_connected()` is
already false (Disconnected), because it is the conjunction
`connected and running` and `stop()` cleared `running`.  The reported
state therefore does not become Disconnected "only after" the departure
sequence completes. -/
theorem reported_disconnect_before_departure_counterexample :
    (LowerLongPollingClient.stop ⟨true, true⟩).connected = true
      ∧ is_connected (LowerLongPollingClient.stop ⟨true, true⟩) = false := by
  decide

/-- C7 amended: after `stop()`, no further probe executes; the epilogue
then attempts the departure notification exactly once, with its own short
timeout (5, shorter than the 10 of a probe), its failure swallowed — the
epilogue's result does not depend on the notification outcome — and the
internal `connected` flag is cleared only by this epilogue; but the
reported `is_connected()` already reads false from the moment `stop()`
clears `running`. -/
theorem shutdown_departure_exactly_once (s : HbState)
    (notify : Except String Unit) (evts : List HbEvent) :
    (hbRun (LowerLongPollingClient.stop s) evts).2 = 0
      ∧ (shutdownEpilogue s notify).2 = 1
      ∧ (shutdownEpilogue s notify).1.connected = false
      ∧ shutdownEpilogue s notify = shutdownEpilogue s (Except.ok ())
      ∧ offline_notice_timeout < probe_timeout
      ∧ is_connected (LowerLongPollingClient.stop s) = false := by
  refine ⟨?_, ?_, ?_, ?_, by decide, ?_⟩
  · cases evts <;> simp [hbRun, LowerLongPollingClient.stop]
  · cases notify <;> rfl
  · cases notify <;> rfl
  · cases notify <;> rfl
  · simp [is_connected, LowerLongPollingClient.stop]

end LowerClient

namespace LowerClient

/-! ## Per-item status and the aggregate completion check (`src/main.py`) -/

/-- The four values `status_label` takes in `src/main.py`: `"等待上传"`
(initial, line 129), `"上传中..."` (line 727), `"✓ 成功"` (line 773),
`"✗ 失败"` (line 779).  `check_all_uploads_finished` classifies a status
by the substring tests `"上传中" in status` / `"成功" in status` /
`"失败" in status`, which on these four strings is exactly the
constructor. -/
inductive UploadStatus
  | waiting
  | uploading
  | succeeded
  | failed
  deriving DecidableEq, Repr

/-- The tally computed by `check_all_uploads_finished` (`src/main.py`
lines 789-800). -/
structure Tally where
  allFinished : Bool
  successCount : Nat
  failCount : Nat
  deriving DecidableEq, Repr

/-- The scan over `self.data_items.values()` in
`check_all_uploads_finished`: `all_finished` is falsified by any item
whose status contains `"上传中"`; the `elif` arms count the items whose
status contains `"成功"` resp. `"失败"` (waiting items count in neither
and do not block completion). -/
def tallyOf (statuses : List UploadStatus) : Tally :=
  { allFinished := !(statuses.any (fun st => st == UploadStatus.uploading))
    successCount := statuses.countP (fun st => st == UploadStatus.succeeded)
    failCount := statuses.countP (fun st => st == UploadStatus.failed) }

/-- The enabled-state of the four buttons touched by
`restore_upload_buttons` (`src/main.py` lines 810-815). -/
structure WindowButtons where
  upload_enabled : Bool
  stop_enabled : Bool
  add_excel_enabled : Bool
  add_image_enabled : Bool
  deriving DecidableEq, Repr

/-- `LowerComputerWindow.restore_upload_buttons` (lines 810-815). -/
def restore_upload_buttons (_b : WindowButtons) : WindowButtons :=
  { upload_enabled := true, stop_enabled := false,
    add_excel_enabled := true, add_image_enabled := true }

/-- The window state read and written by `check_all_uploads_finished`:
the item statuses (read only) and the button states (written on
completion).  The log append and the `QMessageBox` are pure outputs and
are not part of the state. -/
structure WindowState where
  statuses : List UploadStatus
  buttons : WindowButtons
  deriving DecidableEq, Repr

/-- Shallow embedding of `LowerComputerWindow.check_all_uploads_finished`
(`src/main.py` lines 787-808): scan every item of `data_items`, and when
all are finished and at least one terminal status exists, restore the
buttons and report the tally.  Returns the updated state and the tally
computed by the scan. -/
def check_all_uploads_finished (w : WindowState) : WindowState × Tally :=
  if (tallyOf w.statuses).allFinished
      && (decide (0 < (tallyOf w.statuses).successCount)
          || decide (0 < (tallyOf w.statuses).failCount)) then
    ({ w with buttons := restore_upload_buttons w.buttons }, tallyOf w.statuses)
  else (w, tallyOf w.statuses)

/-- Tally as the claim words it, for comparison with the code: counting
only the items of the batch just submitted (each item paired with a flag
saying whether it belongs to that batch). -/
def batchTallyClaim (items : List (UploadStatus × Bool)) : Tally :=
  tallyOf ((items.filter (fun p => p.2)).map Prod.fst)

/-- What the code computes on the same flagged item list: the scan runs
over ALL of `data_items`, ignoring batch membership. -/
def codeTallyAll (items : List (UploadStatus × Bool)) : Tally :=
  tallyOf (items.map Prod.fst)

/-- C6 counterexample: with one already-succeeded item left over from an
earlier batch and one item of the batch just submitted that succeeded,
the code's scan reports success = 2 while a tally restricted to the batch
just submitted reports success = 1: the check does NOT count only the
items of the batch just submitted. -/
theorem completion_tally_counts_stale_items :
    codeTallyAll [(UploadStatus.succeeded, false), (UploadStatus.succeeded, true)]
        ≠ batchTallyClaim
            [(UploadStatus.succeeded, false), (UploadStatus.succeeded, true)]
      ∧ (codeTallyAll
            [(UploadStatus.succeeded, false), (UploadStatus.succeeded, true)]).successCount = 2
      ∧ (batchTallyClaim
            [(UploadStatus.succeeded, false), (UploadStatus.succeeded, true)]).successCount = 1 := by
  decide

/-- C6 amended: the completion check is idempotent and side-effect-free on
the item statuses — it never mutates any status, and run twice in a row it
yields the same success/failure tally both times — but the tally counts
every item currently in the list with a terminal status, not only the
batch just submitted. -/
theorem completion_check_idempotent (w : WindowState) :
    (check_all_uploads_finished w).1.statuses = w.statuses
      ∧ (check_all_uploads_finished ((check_all_uploads_finished w).1)).2
          = (check_all_uploads_finished w).2
      ∧ (check_all_uploads_finished w).2 = tallyOf w.statuses := by
  by_cases h : ((tallyOf w.statuses).allFinished
      && (decide (0 < (tallyOf w.statuses).successCount)
          || decide (0 < (tallyOf w.statuses).failCount))) = true
  · simp [check_all_uploads_finished, h]
  · simp [check_all_uploads_finished, h]

end LowerClient

namespace LowerClient

/-! ## Item selection (`MeterDataListItem`, `src/main.py` lines 78-163) -/

/-- The selection-relevant state of a `MeterDataListItem`: the `uploaded`
flag (line 84) and the checkbox state. -/
structure ItemState where
  uploaded : Bool
  checked : Bool
  deriving DecidableEq, Repr

/-- `MeterDataListItem.set_uploaded` (lines 146-151):
`self.uploaded = uploaded; if uploaded: self.checkbox.setChecked(False)`. -/
def set_uploaded (s : ItemState) (uploaded : Bool) : ItemState :=
  { uploaded := uploaded, checked := if uploaded then false else s.checked }

/-- An operator toggling the checkbox: `checkbox.setChecked(b)` changes
only the checkbox, never the `uploaded` flag. -/
def setChecked (s : ItemState) (b : Bool) : ItemState :=
  { s with checked := b }

/-- `MeterDataListItem.is_selected` (lines 153-155):
`self.checkbox.isChecked() and not self.uploaded`. -/
def is_selected (s : ItemState) : Bool :=
  s.checked && !s.uploaded

/-- A sequence of operator checkbox actions applied in order. -/
def applyChecks (s : ItemState) : List Bool → ItemState
  | [] => s
  | b :: bs => applyChecks (setChecked s b) bs

/-- The selection filter of `LowerComputerWindow.upload_data`
(`src/main.py` lines 699-702): the submitted batch is exactly the items
whose `is_selected()` is true. -/
def uploadSelection (items : List ItemState) : List ItemState :=
  items.filter (fun i => is_selected i)

theorem applyChecks_uploaded (s : ItemState) (ops : List Bool) :
    (applyChecks s ops).uploaded = s.uploaded := by
  induction ops generalizing s with
  | nil => rfl
  | cons b bs ih => simpa [applyChecks, setChecked] using ih (setChecked s b)

/-- C8: once `set_uploaded True` marks an item (as `on_upload_finished`
does on success), the `uploaded` flag stays true under any sequence of
operator checkbox re-checks, the item's `is_selected()` stays false, and
the item is never contained in the selection a later `upload_data` call
submits. -/
theorem succeeded_item_never_reselectable (s : ItemState) (ops : List Bool)
    (items : List ItemState) :
    (applyChecks (set_uploaded s true) ops).uploaded = true
      ∧ is_selected (applyChecks (set_uploaded s true) ops) = false
      ∧ applyChecks (set_uploaded s true) ops ∉ uploadSelection items := by
  have hup : (applyChecks (set_uploaded s true) ops).uploaded = true := by
    rw [applyChecks_uploaded]
    rfl
  refine ⟨hup, ?_, ?_⟩
  · simp [is_selected, hup]
  · intro hmem
    have hsel := (List.mem_filter.mp hmem).2
    rw [is_selected, hup] at hsel
    simp at hsel

/-- Witness for C8 at a concrete item: a freshly succeeded item whose
checkbox the operator re-checks twice stays unselected and is excluded
from a later submit over a concrete list. -/
theorem succeeded_item_never_reselectable_witness :
    (applyChecks (set_uploaded ⟨false, true⟩ true) [true, true]).uploaded = true
      ∧ is_selected (applyChecks (set_uploaded ⟨false, true⟩ true) [true, true]) = false
      ∧ applyChecks (set_uploaded ⟨false, true⟩ true) [true, true]
          ∉ uploadSelection [⟨true, true⟩, ⟨false, true⟩] :=
  succeeded_item_never_reselectable ⟨false, true⟩ [true, true]
    [⟨true, true⟩, ⟨false, true⟩]

end LowerClient

namespace LowerClient

/-! ## Upload worker pool (`src/main.py` lines 178-179,
`src/config/config.py` lines 117-119) -/

/-- `LowerConfig.concurrent_uploads`:
`self.config.getint('upload', 'concurrent_uploads', fallback=2)` — the
configured value when the key parses, otherwise the fallback 2. -/
def concurrent_uploads (configured : Option Nat) : Nat :=
  configured.getD 2

/-- The worker-pool state: the thread-count bound installed by
`self.thread_pool.setMaxThreadCount(lower_config.concurrent_uploads)`,
the number of in-flight (active) workers, and the number of queued
runnables not yet started. -/
structure PoolState where
  maxThreads : Nat
  active : Nat
  queued : Nat
  deriving DecidableEq, Repr

/-- Transition semantics of the bounded pool the window configures
(`QThreadPool` under `setMaxThreadCount`): `submit` is
`thread_pool.start(worker)` enqueueing one task; `dispatch` moves a queued
task in flight and is enabled only while the active count is below
`maxThreads`; `finish` retires one in-flight task (success, failure or
cancellation alike).  `maxThreads` is never changed after
`LowerComputerWindow.__init__` installs it. -/
inductive PoolStep : PoolState → PoolState → Prop
  | submit (s : PoolState) :
      PoolStep s { s with queued := s.queued + 1 }
  | dispatch (s : PoolState) (hslot : s.active < s.maxThreads)
      (hq : 0 < s.queued) :
      PoolStep s { s with queued := s.queued - 1, active := s.active + 1 }
  | finish (s : PoolState) (ha : 0 < s.active) :
      PoolStep s { s with active := s.active - 1 }

/-- Pool state installed by `LowerComputerWindow.__init__` (lines
178-179): no worker yet, bound `concurrent_uploads`. -/
def poolInit (configured : Option Nat) : PoolState :=
  { maxThreads := concurrent_uploads configured, active := 0, queued := 0 }

/-- A pool state reachable from the initial state by submit/dispatch/finish
steps. -/
def PoolReachable (configured : Option Nat) (s : PoolState) : Prop :=
  Relation.ReflTransGen PoolStep (poolInit configured) s

/-- C9: in every reachable pool state — however many items were submitted —
the number of in-flight transfers never exceeds the installed bound, the
bound is the configured concurrency limit, and with no configured value
the limit defaults to 2. -/
theorem pool_inflight_bounded (configured : Option Nat) (s : PoolState)
    (hreach : PoolReachable configured s) :
    s.active ≤ s.maxThreads
      ∧ s.maxThreads = concurrent_uploads configured
      ∧ concurrent_uploads none = 2 := by
  refine ⟨?_, ?_, rfl⟩
  · have hinv : s.active ≤ s.maxThreads ∧ s.maxThreads = concurrent_uploads configured := by
      induction hreach with
      | refl => exact ⟨Nat.zero_le _, rfl⟩
      | tail hto hstep ih =>
          cases hstep with
          | submit => exact ⟨ih.1, ih.2⟩
          | dispatch hslot hq => exact ⟨hslot, ih.2⟩
          | finish ha => exact ⟨Nat.le_trans (Nat.sub_le _ _) ih.1, ih.2⟩
    exact hinv.1
  · induction hreach with
    | refl => rfl
    | tail hto hstep ih => cases hstep with
        | submit => exact ih
        | dispatch hslot hq => exact ih
        | finish ha => exact ih

/-- Witness for C9 at a concrete reachable state: submitting three items
to the default pool (bound 2) and dispatching twice reaches the state with
2 in flight and 1 queued, and the invariant instantiates there. -/
theorem pool_inflight_bounded_witness :
    (⟨2, 2, 1⟩ : PoolState).active ≤ (⟨2, 2, 1⟩ : PoolState).maxThreads
      ∧ (⟨2, 2, 1⟩ : PoolState).maxThreads = concurrent_uploads none
      ∧ concurrent_uploads none = 2 := by
  have h1 : PoolStep (⟨2, 0, 0⟩ : PoolState) ⟨2, 0, 1⟩ := PoolStep.submit _
  have h2 : PoolStep (⟨2, 0, 1⟩ : PoolState) ⟨2, 0, 2⟩ := PoolStep.submit _
  have h3 : PoolStep (⟨2, 0, 2⟩ : PoolState) ⟨2, 0, 3⟩ := PoolStep.submit _
  have h4 : PoolStep (⟨2, 0, 3⟩ : PoolState) ⟨2, 1, 2⟩ :=
    PoolStep.dispatch _ (by decide) (by decide)
  have h5 : PoolStep (⟨2, 1, 2⟩ : PoolState) ⟨2, 2, 1⟩ :=
    PoolStep.dispatch _ (by decide) (by decide)
  have hreach : PoolReachable none ⟨2, 2, 1⟩ :=
    Relation.ReflTransGen.tail
      (Relation.ReflTransGen.tail
        (Relation.ReflTransGen.tail
          (Relation.ReflTransGen.tail
            (Relation.ReflTransGen.tail Relation.ReflTransGen.refl h1) h2) h3) h4) h5
  exact pool_inflight_bounded none ⟨2, 2, 1⟩ hreach

end LowerClient

namespace LowerClient

/-! ## Adding a file to the work queue (`src/main.py`, `add_meter_data`) -/

/-- The per-item fields relevant to queue membership: lifecycle status and
the operator-facing selection. -/
structure QueueEntry where
  status : UploadStatus
  selected : Bool
  deriving DecidableEq, Repr

/-- Shallow embedding of `LowerComputerWindow.add_meter_data`
(`src/main.py` lines 583-618) on the `data_items` association of file
paths to entries, in insertion order.  The guard
`if str(file_path) in self.data_items: return` makes a duplicate path a
no-op before anything is created; `create_meter_data` may fail
(nonexistent file or unsupported extension), in which case the method also
returns without touching the queue; only otherwise a new entry is
appended under the path key. -/
def add_meter_data (items : List (String × QueueEntry)) (path : String)
    (created : Option QueueEntry) : List (String × QueueEntry) :=
  if items.any (fun p => p.1 == path) then items
  else
    match created with
    | none => items
    | some e => items ++ [(path, e)]

/-- C10: adding a path already present in the queue is a no-op — the whole
queue, hence every existing item's status and selection, is unchanged and
no new item is created — and consequently a queue whose paths are distinct
keeps its paths distinct under any add, so the queue holds at most one
item per file path. -/
theorem add_meter_data_idempotent_per_path (items : List (String × QueueEntry))
    (path : String) (created : Option QueueEntry) :
    (path ∈ items.map Prod.fst → add_meter_data items path created = items)
      ∧ ((items.map Prod.fst).Nodup →
          ((add_meter_data items path created).map Prod.fst).Nodup) := by
  constructor
  · intro hmem
    obtain ⟨pair, hpair, hfst⟩ := List.mem_map.mp hmem
    have hany : items.any (fun p => p.1 == path) = true := by
      refine List.any_eq_true.mpr ⟨pair, hpair, ?_⟩
      simp [hfst]
    simp [add_meter_data, hany]
  · intro hnd
    by_cases hany : items.any (fun p => p.1 == path) = true
    · simpa [add_meter_data, hany] using hnd
    · cases created with
      | none => simpa [add_meter_data, hany] using hnd
      | some e =>
          have hnot : path ∉ items.map Prod.fst := by
            intro hmem
            obtain ⟨pair, hpair, hfst⟩ := List.mem_map.mp hmem
            exact hany (List.any_eq_true.mpr ⟨pair, hpair, by simp [hfst]⟩)
          have : ((items ++ [(path, e)]).map Prod.fst).Nodup := by
            rw [List.map_append]
            simp [List.nodup_append, hnd, hnot]
          simpa [add_meter_data, hany] using this

/-- Witness for C10 at a concrete queue: re-adding the path `"a.xlsx"`
already present leaves the queue unchanged, and distinct paths stay
distinct. -/
theorem add_meter_data_idempotent_per_path_witness :
    ("a.xlsx" ∈
        ([("a.xlsx", (⟨UploadStatus.waiting, true⟩ : QueueEntry))].map Prod.fst))
      ∧ add_meter_data [("a.xlsx", ⟨UploadStatus.waiting, true⟩)] "a.xlsx"
            (some ⟨UploadStatus.waiting, true⟩)
          = [("a.xlsx", ⟨UploadStatus.waiting, true⟩)]
      ∧ ((add_meter_data [("a.xlsx", ⟨UploadStatus.waiting, true⟩)] "a.xlsx"
            (some ⟨UploadStatus.waiting, true⟩)).map Prod.fst).Nodup := by
  have h := add_meter_data_idempotent_per_path
    [("a.xlsx", ⟨UploadStatus.waiting, true⟩)] "a.xlsx"
    (some ⟨UploadStatus.waiting, true⟩)
  have hmem : "a.xlsx" ∈
      ([("a.xlsx", (⟨UploadStatus.waiting, true⟩ : QueueEntry))].map Prod.fst) := by
    simp
  have hnd : (([("a.xlsx", (⟨UploadStatus.waiting, true⟩ : QueueEntry))]).map
      Prod.fst).Nodup := by simp
  exact ⟨hmem, h.1 hmem, h.2 hnd⟩

end LowerClient
